import Mathlib

/-!
Verification of the `dlprotoc` crate: the pinned-release verification and
retrieval engine for downloading `protoc` binaries.

The crate source contains two snapshots of the registry machinery:
* `src/lib.rs` defines `OS`, `CPUArch`, `make_url`, an 8-entry
  `KNOWN_VERSIONS` table with a hardcoded `LATEST_VERSION = "27.1"`, the
  `known_hash` lookup, and the orchestration (`fetch_current`,
  `write_protoc`, `download_protoc`).
* `src/versions.rs` defines identical `OS` / `CPUArch` enums, a 46-entry
  `KNOWN_VERSIONS` table, a `LATEST_VERSION` computed as the last entry's
  version, and the same `known_hash` lookup.

The shared enums and pure string functions are embedded once in namespace
`Dlprotoc`; the two registry tables live in `Dlprotoc.Lib` and
`Dlprotoc.Versions`.  External crates (`reqwest` for HTTP, `sha2` for the
digest primitive, `zip` for extraction) are modelled as parameters of an
environment record, since their code is not part of this repository; the
control flow of the orchestration over those effects is embedded exactly.
SHA-256 digests are embedded as 256-bit natural numbers (the big-endian
value of the 32 hash bytes).
-/

namespace Dlprotoc

/-- Operating system used to run protoc (`enum OS` in both `lib.rs` and
`versions.rs`). -/
inductive OS where
  | Linux
  | OSX
deriving DecidableEq, Repr

/-- CPU architecture used to run protoc (`enum CPUArch` in both `lib.rs`
and `versions.rs`). -/
inductive CPUArch where
  | AArch64
  | X86_64
deriving DecidableEq, Repr

/-- `impl Display for OS`: the string token used in protoc URLs. -/
def OS.urlToken : OS → String
  | .Linux => "linux"
  | .OSX => "osx"

/-- `impl Display for CPUArch`: the string token used in protoc URLs. -/
def CPUArch.urlToken : CPUArch → String
  | .AArch64 => "aarch_64"
  | .X86_64 => "x86_64"

/-- `OS::all()`: all defined enum values, in declaration order. -/
def OS.all : List OS := [.Linux, .OSX]

/-- `CPUArch::all()`: all defined enum values, in declaration order. -/
def CPUArch.all : List CPUArch := [.AArch64, .X86_64]

/-- `OS::rust_identifier()`: the Rust enum identifier as used in code. -/
def OS.rust_identifier : OS → String
  | .Linux => "Linux"
  | .OSX => "OSX"

/-- `CPUArch::code_label()`: the Rust enum identifier as used in code. -/
def CPUArch.code_label : CPUArch → String
  | .AArch64 => "AArch64"
  | .X86_64 => "X86_64"

/-- `OS::current()`: maps the value of `std::env::consts::OS` to an `OS`
variant.  The Rust function panics (process abort) on any other string;
the panic is embedded as `none`. -/
def OS.currentFrom (osStr : String) : Option OS :=
  if osStr = "linux" then some .Linux
  else if osStr = "macos" then some .OSX
  else none

/-- `CPUArch::current()`: maps the value of `std::env::consts::ARCH` to a
`CPUArch` variant.  The Rust function panics (process abort) on any other
string; the panic is embedded as `none`. -/
def CPUArch.currentFrom (archStr : String) : Option CPUArch :=
  if archStr = "aarch64" then some .AArch64
  else if archStr = "x86_64" then some .X86_64
  else none

/-- `make_url` (`lib.rs`): the URL to download the protoc release,
built with `format!` from the version and the Display tokens of the OS
and CPU architecture. -/
def make_url (os : OS) (cpu : CPUArch) (version : String) : String :=
  "https://github.com/protocolbuffers/protobuf/releases/download/v" ++ version
    ++ "/protoc-" ++ version ++ "-" ++ os.urlToken ++ "-" ++ cpu.urlToken ++ ".zip"

/-- `struct KnownVersion`: an expected hash for a specific protoc binary
release.  The 32-byte SHA-256 digest is embedded as its big-endian
natural-number value. -/
structure KnownVersion where
  os : OS
  cpu : CPUArch
  version : String
  hash : Nat
deriving DecidableEq, Repr

/-- The `for` loop body shared by both `known_hash` functions: scan the
table in order and return the hash of the first entry whose
`(os, cpu, version)` fields all equal the query. -/
def known_hash_scan : List KnownVersion → OS → CPUArch → String → Option Nat
  | [], _, _, _ => none
  | known :: rest, os, cpu, version =>
    if known.os = os ∧ known.cpu = cpu ∧ known.version = version then
      some known.hash
    else
      known_hash_scan rest os cpu version

/-- `known_hash` over a given table: `Ok(hash)` for the first exact match,
otherwise the `unknown hash for {os} {cpu} {version}` error. -/
def known_hash_in (table : List KnownVersion) (os : OS) (cpu : CPUArch)
    (version : String) : Except String Nat :=
  match known_hash_scan table os cpu version with
  | some h => .ok h
  | none => .error ("unknown hash for " ++ os.urlToken ++ " " ++ cpu.urlToken
      ++ " " ++ version)

end Dlprotoc

namespace Dlprotoc.Lib

/-- `LATEST_VERSION` (`lib.rs`): hardcoded most recent known version. -/
def LATEST_VERSION : String := "27.1"

/-- `static KNOWN_VERSIONS` (`lib.rs`): the 8-entry pinned-digest table. -/
def KNOWN_VERSIONS : List KnownVersion := [
  ⟨.Linux, .X86_64, "27.0", 0xe2bdce49564dbad4676023d174d9cdcf932238bc0b56a8349a5cb27bbafc26b0⟩,
  ⟨.Linux, .AArch64, "27.0", 0x1e4b2d8b145afe99a36602f305165761e46d2525aa94cbb907e2e983be6717ac⟩,
  ⟨.OSX, .X86_64, "27.0", 0xd956cf3a9e91a687aa4d1026e9261e5a587e4e0b545db0174509f6c448b8ce21⟩,
  ⟨.OSX, .AArch64, "27.0", 0x2cf59e3e3463bede1f10b7517efdddd97a3bd8cfd9cacc286407b657290dc781⟩,
  ⟨.Linux, .AArch64, "27.1", 0x8809c2ec85368c6b6e9af161b6771a153aa92670a24adbe46dd34fa02a04df2f⟩,
  ⟨.Linux, .X86_64, "27.1", 0x8970e3d8bbd67d53768fe8c2e3971bdd71e51cfe2001ca06dacad17258a7dae3⟩,
  ⟨.OSX, .AArch64, "27.1", 0x03b7af1bf469e7285dc51976ee5fa99412704dbd1c017105114852a37b165c12⟩,
  ⟨.OSX, .X86_64, "27.1", 0x8520d944f3a3890fa296a3b3b0d4bb18337337e2526bbbf1b507eeea3c2a1ec4⟩]

/-- `known_hash` (`lib.rs`): lookup in the `lib.rs` table. -/
def known_hash (os : OS) (cpu : CPUArch) (version : String) :
    Except String Nat :=
  known_hash_in KNOWN_VERSIONS os cpu version

end Dlprotoc.Lib

namespace Dlprotoc.Versions

/-- `const KNOWN_VERSIONS` (`versions.rs`): the 46-entry pinned-digest
table, in increasing version number order. -/
def KNOWN_VERSIONS : List KnownVersion := [
  ⟨.Linux, .X86_64, "27.0", 0xe2bdce49564dbad4676023d174d9cdcf932238bc0b56a8349a5cb27bbafc26b0⟩,
  ⟨.Linux, .AArch64, "27.0", 0x1e4b2d8b145afe99a36602f305165761e46d2525aa94cbb907e2e983be6717ac⟩,
  ⟨.Linux, .AArch64, "27.1", 0x8809c2ec85368c6b6e9af161b6771a153aa92670a24adbe46dd34fa02a04df2f⟩,
  ⟨.Linux, .X86_64, "27.1", 0x8970e3d8bbd67d53768fe8c2e3971bdd71e51cfe2001ca06dacad17258a7dae3⟩,
  ⟨.OSX, .AArch64, "27.1", 0x03b7af1bf469e7285dc51976ee5fa99412704dbd1c017105114852a37b165c12⟩,
  ⟨.OSX, .X86_64, "27.1", 0x8520d944f3a3890fa296a3b3b0d4bb18337337e2526bbbf1b507eeea3c2a1ec4⟩,
  ⟨.Linux, .AArch64, "27.2", 0xff4760bd4ae510d533e528cc6deb8e32e53f383f0ec01b0327233b4c2e8db314⟩,
  ⟨.Linux, .X86_64, "27.2", 0x4a95e0ea2e51720af86a92f48d4997c8756923a9d0c58fd8a850657cd7479caf⟩,
  ⟨.OSX, .AArch64, "27.2", 0x877de17b5d2662b96e68a6e208cb1851437ab3e2b419c2ef5b7b873ffac5357d⟩,
  ⟨.OSX, .X86_64, "27.2", 0xabc25a236571612d45eb4b6b6e6abe3ac9aecc34b195f76f248786844f5619c7⟩,
  ⟨.Linux, .AArch64, "27.3", 0xbdad36f3ad7472281d90568c4956ea2e203c216e0de005c6bd486f1920f2751c⟩,
  ⟨.Linux, .X86_64, "27.3", 0x6dab2adab83f915126cab53540d48957c40e9e9023969c3e84d44bfb936c7741⟩,
  ⟨.OSX, .AArch64, "27.3", 0xb22116bd97cdbd7ea25346abe635a9df268515fe5ef5afa93cd9a68fc2513f84⟩,
  ⟨.OSX, .X86_64, "27.3", 0xce282648fed0e7fbd6237d606dc9ec168dd2c1863889b04efa0b19c47da65d1b⟩,
  ⟨.Linux, .AArch64, "28.2", 0x91d8253cdc0f0f0fc51c2b69c80677996632f525ad84504bfa5b4ee38ad3e49c⟩,
  ⟨.Linux, .X86_64, "28.2", 0x2febfd42b59ce93a28eb789019a470a3dd0449619bc04f84dad1333da261dec1⟩,
  ⟨.OSX, .AArch64, "28.2", 0x7bb048f52841789d9ec61983be0ce4c9e4fb3bd9a143462820ba9a3be0a03797⟩,
  ⟨.OSX, .X86_64, "28.2", 0x232f07d12bf4806207a79ec2c7378301c52e6f2f7efdd21c0dd416f0bda103ec⟩,
  ⟨.Linux, .AArch64, "29.0", 0x305f1be5ae7b2f39451870b312b45c1e0ba269901c83ba16d85f9f9d1441b348⟩,
  ⟨.Linux, .X86_64, "29.0", 0x3c51065af3b9a606d9e18a1bf628143734ff4b9e69725d6459857430ba7a78df⟩,
  ⟨.OSX, .AArch64, "29.0", 0xb2b59f03b030c8a748623d682a8b5bc9cc099e4bcfd06b8964ce89ec065b3103⟩,
  ⟨.OSX, .X86_64, "29.0", 0xe7a1cffc82e21daa67833011449c70ddff1eba3b115934387e6e8141efab092f⟩,
  ⟨.Linux, .AArch64, "29.2", 0x29cf483e2fb21827e5fac4964e35eae472a238e28c762f02fb17dcd93ff8b89f⟩,
  ⟨.Linux, .X86_64, "29.2", 0x52e9e7ece55c7e30e7e8bbd254b4b21b408a5309bca826763c7124b696a132e9⟩,
  ⟨.OSX, .AArch64, "29.2", 0x0e153a38d6da19594c980e7f7cd3ea0ddd52c9da1068c03c0d8533369fbfeb20⟩,
  ⟨.OSX, .X86_64, "29.2", 0xba2bd983b5f06ec38d663b602884a597dea3990a43803d7e153ed8f7c54269e1⟩,
  ⟨.Linux, .AArch64, "29.3", 0x6427349140e01f06e049e707a58709a4f221ae73ab9a0425bc4a00c8d0e1ab32⟩,
  ⟨.Linux, .X86_64, "29.3", 0x3e866620c5be27664f3d2fa2d656b5f3e09b5152b42f1bedbf427b333e90021a⟩,
  ⟨.OSX, .AArch64, "29.3", 0x2b8a3403cd097f95f3ba656e14b76c732b6b26d7f183330b11e36ef2bc028765⟩,
  ⟨.OSX, .X86_64, "29.3", 0x9a788036d8f9854f7b03c305df4777cf0e54e5b081e25bf15252da87e0e90875⟩,
  ⟨.Linux, .AArch64, "30.0", 0x5ab347b71fb8a87139cec36aac4bd0ee3ac3f4f2af9fc68ebdf556e1c0a665c6⟩,
  ⟨.Linux, .X86_64, "30.0", 0x2fbbc1818463d7e6d93c19a8dea839e663ca5f8579a52ef78c7688188335fa6c⟩,
  ⟨.OSX, .AArch64, "30.0", 0x7eb5b51d37bac410ba70ef91c404f90b1fabcb823712ff656582d34acc87ca74⟩,
  ⟨.OSX, .X86_64, "30.0", 0x96bf3a5fbeefd57d7dc0c20a2c7bb3f226ad84b79e5b509386824322017b9417⟩,
  ⟨.Linux, .AArch64, "30.1", 0xe866d3dc4775e8032721915e83e3fb6e1ab4def7199a49b4f95c4d1f6cf4c03a⟩,
  ⟨.Linux, .X86_64, "30.1", 0x5537e15ab0c0e610f809573948d3ec7d6ef387a07991e1c361a2a0e8cad983e5⟩,
  ⟨.OSX, .AArch64, "30.1", 0x03467cfd967de12a61406b7473e80204d3ae38f30f82855318186d696237e3b9⟩,
  ⟨.OSX, .X86_64, "30.1", 0xa4aeefd2f59ccce59cfa01a89fe58adb40bb9010f43adfca3c4fee7fd37ec2c5⟩,
  ⟨.Linux, .AArch64, "30.2", 0xa3173ea338ef91b1605b88c4f8120d6c8ccf36f744d9081991d595d0d4352996⟩,
  ⟨.Linux, .X86_64, "30.2", 0x327e9397c6fb3ea2a542513a3221334c6f76f7aa524a7d2561142b67b312a01f⟩,
  ⟨.OSX, .AArch64, "30.2", 0x92728c650f6cf2b6c37891ae04ef5bc2d4b5f32c5fbbd101eda623f90bb95f63⟩,
  ⟨.OSX, .X86_64, "30.2", 0x65675c3bb874a2d5f0c941e61bce6175090be25fe466f0ec2d4a6f5978333624⟩,
  ⟨.Linux, .AArch64, "31.0", 0x999f4c023366b0b68c5c65272ead7877e47a2670245a79904b83450575da7e19⟩,
  ⟨.Linux, .X86_64, "31.0", 0x24e2ed32060b7c990d5eb00d642fde04869d7f77c6d443f609353f097799dd42⟩,
  ⟨.OSX, .AArch64, "31.0", 0x1fbe70a8d646875f91b6fd57294f763145292b2c9e1374ab09d6e2124afdd950⟩,
  ⟨.OSX, .X86_64, "31.0", 0x0360d9b6d9e3d66958cf6274d8514da49e76d475fd0d712181dcc7e9e056f2c8⟩]

/-- `LATEST_VERSION` (`versions.rs`): the version field of the last entry
of `KNOWN_VERSIONS`. -/
def LATEST_VERSION : String :=
  (KNOWN_VERSIONS.getLast (by decide)).version

/-- `known_hash` (`versions.rs`): lookup in the `versions.rs` table. -/
def known_hash (os : OS) (cpu : CPUArch) (version : String) :
    Except String Nat :=
  known_hash_in KNOWN_VERSIONS os cpu version

end Dlprotoc.Versions

namespace Dlprotoc

/-- Observable effects of an install run: one `fetch` per HTTP GET issued
by `download_unverified` (carrying the URL), one `extract` per zip
extraction performed by `write_protoc_zip_data` (carrying the destination
directory). -/
inductive Event where
  | fetch (url : String)
  | extract (dest : String)
deriving DecidableEq, Repr

/-- Whether an event is a network fetch. -/
def Event.isFetch : Event → Bool
  | .fetch _ => true
  | .extract _ => false

/-- The number of network fetches in a trace. -/
def countFetch (tr : List Event) : Nat :=
  (tr.filter Event.isFetch).length

/-- The external crates the orchestration calls into, none of whose code
is part of this repository:
* `get url`: `reqwest::blocking::get(url)?.error_for_status()?.bytes()`,
  returning the response body bytes or a transport error message;
* `sha256 data`: the `sha2` crate's SHA-256 digest of `data`, as a 256-bit
  natural number (the same encoding used for the pinned hashes);
* `unzip dest bytes`: `zip::ZipArchive::new(..)` + `extract(dest)`,
  returning unit or a zip/io error message. -/
structure Env where
  get : String → Except String (List Nat)
  sha256 : List Nat → Nat
  unzip : String → List Nat → Except String Unit

/-- `protoc_hash` (`lib.rs`): hashes data using SHA-256 (the `sha2` crate,
abstracted into the environment). -/
def protoc_hash (env : Env) (data : List Nat) : Nat :=
  env.sha256 data

/-- `download_unverified` (`lib.rs`): builds the release URL with
`make_url` and performs one HTTP GET, with no integrity check.  The
returned trace records the single fetch. -/
def download_unverified (env : Env) (os : OS) (cpu : CPUArch)
    (version : String) : Except String (List Nat) × List Event :=
  let url := make_url os cpu version
  (env.get url, [Event.fetch url])

/-- `fetch_current` (`lib.rs`): resolves the current platform (panicking,
i.e. `none`, on an unsupported `std::env::consts::OS` / `ARCH` string),
looks up the pinned hash for `LATEST_VERSION`, downloads the release,
hashes it, and fails with the `hash mismatch` error when the computed
hash differs from the pinned one.  `osStr` / `archStr` stand for
`std::env::consts::OS` / `std::env::consts::ARCH`. -/
def fetch_current (env : Env) (osStr archStr : String) :
    Option (Except String (List Nat) × List Event) :=
  match OS.currentFrom osStr, CPUArch.currentFrom archStr with
  | some os, some cpu =>
    let version := Lib.LATEST_VERSION
    match Lib.known_hash os cpu version with
    | .error e => some (.error e, [])
    | .ok expected_hash =>
      match download_unverified env os cpu version with
      | (.error e, tr) => some (.error e, tr)
      | (.ok data, tr) =>
        let actual_hash := protoc_hash env data
        if expected_hash ≠ actual_hash then
          some (.error ("hash mismatch for " ++ os.urlToken ++ " "
            ++ cpu.urlToken ++ " " ++ version), tr)
        else
          some (.ok data, tr)
  | _, _ => none

/-- `write_protoc_zip_data` (`lib.rs`): extracts the zip data into
`destination_dir` via the `zip` crate.  The trace records the single
extraction. -/
def write_protoc_zip_data (env : Env) (destination_dir : String)
    (protoc_zip_bytes : List Nat) : Except String Unit × List Event :=
  (env.unzip destination_dir protoc_zip_bytes, [Event.extract destination_dir])

/-- `write_protoc` (`lib.rs`): downloads protoc for the current platform,
checking the hashes (`fetch_current`), then extracts the verified bytes
into `destination_dir`.  A failure of `fetch_current` propagates with the
`?` operator before any extraction is attempted. -/
def write_protoc (env : Env) (osStr archStr : String)
    (destination_dir : String) :
    Option (Except String Unit × List Event) :=
  match fetch_current env osStr archStr with
  | none => none
  | some (.error e, tr) => some (.error e, tr)
  | some (.ok protoc_zip_bytes, tr) =>
    match write_protoc_zip_data env destination_dir protoc_zip_bytes with
    | (res, tr2) => some (res, tr ++ tr2)

/-- The process-global state `download_protoc` touches: the `OUT_DIR`
environment variable, the set of filesystem paths that currently exist,
and the `PROTOC` environment variable. -/
structure BuildState where
  out_dir : Option String
  existing : List String
  protoc_var : Option String
deriving DecidableEq, Repr

/-- `download_protoc` (`lib.rs`): reads `OUT_DIR` (erroring with an
`env`-prefixed message when unset), joins `"protoc_zip"`, skips the
download when that path already exists, otherwise runs `write_protoc`
there (a successful extraction creates the destination tree), and finally
sets the `PROTOC` environment variable to the destination path. -/
def download_protoc (env : Env) (osStr archStr : String)
    (st : BuildState) :
    Option (Except String Unit × BuildState × List Event) :=
  match st.out_dir with
  | none =>
    some (.error "env: environment variable not found", st, [])
  | some out_dir =>
    let protoc_distribution_path := out_dir ++ "/protoc_zip"
    if protoc_distribution_path ∈ st.existing then
      some (.ok (), { st with protoc_var := some protoc_distribution_path }, [])
    else
      match write_protoc env osStr archStr protoc_distribution_path with
      | none => none
      | some (.error e, tr) => some (.error e, st, tr)
      | some (.ok _, tr) =>
        some (.ok (),
          { st with
            existing := protoc_distribution_path :: st.existing,
            protoc_var := some protoc_distribution_path }, tr)

/-- The path of the protoc executable inside an extracted distribution
directory: the crate's own tests locate it as
`protoc_zip_dir_path.join("bin").join("protoc")` (`lib.rs`,
`check_write_protoc`), and the distribution zips place it at
`bin/protoc`. -/
def protoc_binary_path (distribution_dir : String) : String :=
  distribution_dir ++ "/bin/protoc"

/-- A concrete test environment whose digest function never matches any
pinned hash: every download returns the byte `[0]` and every digest
computes to `0`. -/
def envMismatch : Env where
  get := fun _ => .ok [0]
  sha256 := fun _ => 0
  unzip := fun _ _ => .ok ()

/-- A concrete test environment whose digest function reproduces the
pinned hash for (Linux, X86_64, "27.1"), so the verified install
succeeds on that platform: every download returns the byte `[0]`, every
digest computes to the pinned value, and extraction succeeds. -/
def envGood : Env where
  get := fun _ => .ok [0]
  sha256 := fun _ =>
    0x8970e3d8bbd67d53768fe8c2e3971bdd71e51cfe2001ca06dacad17258a7dae3
  unzip := fun _ _ => .ok ()

end Dlprotoc

namespace Dlprotoc

/-- Plain string comparison, as Rust's `Ord for &str` performs it on the
version strings: lexicographic order on the character sequences (all
registry versions are ASCII, where Rust's byte order and the character
order coincide). -/
def str_le (a b : String) : Prop :=
  a.data ≤ b.data

instance (a b : String) : Decidable (str_le a b) := by
  unfold str_le; infer_instance

/-- A successful scan finds an entry of the table matching the query
triple and returns its hash. -/
lemma known_hash_scan_some {t : List KnownVersion} {os : OS}
    {cpu : CPUArch} {v : String} {h : Nat}
    (hscan : known_hash_scan t os cpu v = some h) :
    ∃ k ∈ t, k.os = os ∧ k.cpu = cpu ∧ k.version = v ∧ k.hash = h := by
  induction t with
  | nil => simp [known_hash_scan] at hscan
  | cons head rest ih =>
    rw [known_hash_scan] at hscan
    split at hscan
    · rename_i hmatch
      exact ⟨head, by simp, hmatch.1, hmatch.2.1, hmatch.2.2,
        Option.some.inj hscan⟩
    · obtain ⟨k, hk, hprops⟩ := ih hscan
      exact ⟨k, by simp [hk], hprops⟩

/-- The scan fails exactly when no entry of the table matches the query
triple. -/
lemma known_hash_scan_none_iff (t : List KnownVersion) (os : OS)
    (cpu : CPUArch) (v : String) :
    known_hash_scan t os cpu v = none
      ↔ ∀ k ∈ t, ¬(k.os = os ∧ k.cpu = cpu ∧ k.version = v) := by
  induction t with
  | nil => simp [known_hash_scan]
  | cons head rest ih =>
    rw [known_hash_scan]
    split
    · rename_i hmatch
      simp only [reduceCtorEq, false_iff, not_forall]
      exact ⟨head, by simp, by simpa using hmatch⟩
    · rename_i hmatch
      simp only [ih, List.mem_cons]
      constructor
      · rintro hall k (rfl | hk)
        · exact hmatch
        · exact hall k hk
      · intro hall k hk
        exact hall k (Or.inr hk)

/-- When some entry matches, `known_hash_in` returns `Ok` with a matching
entry's pinned hash. -/
lemma known_hash_in_found {t : List KnownVersion} {os : OS} {cpu : CPUArch}
    {v : String}
    (hex : ∃ k ∈ t, k.os = os ∧ k.cpu = cpu ∧ k.version = v) :
    ∃ k ∈ t, k.os = os ∧ k.cpu = cpu ∧ k.version = v
      ∧ known_hash_in t os cpu v = .ok k.hash := by
  unfold known_hash_in
  cases hscan : known_hash_scan t os cpu v with
  | none =>
    obtain ⟨k, hk, hprops⟩ := hex
    exact absurd hprops ((known_hash_scan_none_iff t os cpu v).mp hscan k hk)
  | some h =>
    obtain ⟨k, hk, h1, h2, h3, h4⟩ := known_hash_scan_some hscan
    exact ⟨k, hk, h1, h2, h3, by rw [h4]⟩

/-- When no entry matches, `known_hash_in` returns the
`unknown hash for {os} {cpu} {version}` error. -/
lemma known_hash_in_not_found {t : List KnownVersion} {os : OS}
    {cpu : CPUArch} {v : String}
    (hnone : ¬∃ k ∈ t, k.os = os ∧ k.cpu = cpu ∧ k.version = v) :
    known_hash_in t os cpu v
      = .error ("unknown hash for " ++ os.urlToken ++ " " ++ cpu.urlToken
        ++ " " ++ v) := by
  unfold known_hash_in
  rw [(known_hash_scan_none_iff t os cpu v).mpr (fun k hk hc => hnone ⟨k, hk, hc⟩)]

end Dlprotoc

namespace Dlprotoc

/-- C2: `make_url` is a pure, deterministic function of
`(os, cpu, version)`: identical inputs give the identical URL; every URL
follows the template
`https://github.com/protocolbuffers/protobuf/releases/download/v<version>/protoc-<version>-<os-token>-<arch-token>.zip`;
in particular `(Linux, X86_64, "27.0")` and `(OSX, AArch64, "26.1")`
produce the two literal URLs the crate's own tests expect. -/
theorem make_url_pure_template :
    make_url .Linux .X86_64 "27.0"
      = "https://github.com/protocolbuffers/protobuf/releases/download/v27.0/protoc-27.0-linux-x86_64.zip"
    ∧ make_url .OSX .AArch64 "26.1"
      = "https://github.com/protocolbuffers/protobuf/releases/download/v26.1/protoc-26.1-osx-aarch_64.zip"
    ∧ (∀ (os : OS) (cpu : CPUArch) (version : String),
        make_url os cpu version
          = "https://github.com/protocolbuffers/protobuf/releases/download/v"
            ++ version ++ "/protoc-" ++ version ++ "-" ++ os.urlToken ++ "-"
            ++ cpu.urlToken ++ ".zip")
    ∧ (∀ (os os2 : OS) (cpu cpu2 : CPUArch) (version version2 : String),
        os = os2 → cpu = cpu2 → version = version2 →
        make_url os cpu version = make_url os2 cpu2 version2) := by
  refine ⟨by decide, by decide, fun os cpu version => rfl, ?_⟩
  rintro os os2 cpu cpu2 version version2 rfl rfl rfl
  rfl

/-- Closed witness for C2's determinism hypotheses, at a concrete
triple. -/
theorem make_url_pure_template_witness :
    make_url .Linux .X86_64 "27.0" = make_url .Linux .X86_64 "27.0" :=
  make_url_pure_template.2.2.2 .Linux .Linux .X86_64 .X86_64 "27.0" "27.0"
    rfl rfl rfl

/-- C3: in both registries, `known_hash` returns `Ok` with a pinned
digest exactly when some entry matches the `(os, cpu, version)` triple
exactly; otherwise it returns the `unknown hash for ...` error — no
fuzzy version matching, no cross-architecture fallback; and version
`"0.0.0"` is unknown for every OS and architecture. -/
theorem known_hash_exact_match_only (os : OS) (cpu : CPUArch) (v : String) :
    ((∃ k ∈ Lib.KNOWN_VERSIONS, k.os = os ∧ k.cpu = cpu ∧ k.version = v) →
      ∃ k ∈ Lib.KNOWN_VERSIONS, k.os = os ∧ k.cpu = cpu ∧ k.version = v
        ∧ Lib.known_hash os cpu v = .ok k.hash)
    ∧ ((¬∃ k ∈ Lib.KNOWN_VERSIONS, k.os = os ∧ k.cpu = cpu ∧ k.version = v) →
      Lib.known_hash os cpu v
        = .error ("unknown hash for " ++ os.urlToken ++ " " ++ cpu.urlToken
          ++ " " ++ v))
    ∧ ((∃ k ∈ Versions.KNOWN_VERSIONS, k.os = os ∧ k.cpu = cpu ∧ k.version = v) →
      ∃ k ∈ Versions.KNOWN_VERSIONS, k.os = os ∧ k.cpu = cpu ∧ k.version = v
        ∧ Versions.known_hash os cpu v = .ok k.hash)
    ∧ ((¬∃ k ∈ Versions.KNOWN_VERSIONS, k.os = os ∧ k.cpu = cpu ∧ k.version = v) →
      Versions.known_hash os cpu v
        = .error ("unknown hash for " ++ os.urlToken ++ " " ++ cpu.urlToken
          ++ " " ++ v))
    ∧ Lib.known_hash os cpu "0.0.0"
      = .error ("unknown hash for " ++ os.urlToken ++ " " ++ cpu.urlToken
        ++ " " ++ "0.0.0")
    ∧ Versions.known_hash os cpu "0.0.0"
      = .error ("unknown hash for " ++ os.urlToken ++ " " ++ cpu.urlToken
        ++ " " ++ "0.0.0") := by
  refine ⟨fun hex => known_hash_in_found hex,
    fun hnone => known_hash_in_not_found hnone,
    fun hex => known_hash_in_found hex,
    fun hnone => known_hash_in_not_found hnone, ?_, ?_⟩
  · exact @known_hash_in_not_found Lib.KNOWN_VERSIONS os cpu "0.0.0"
      (by cases os <;> cases cpu <;> decide)
  · exact @known_hash_in_not_found Versions.KNOWN_VERSIONS os cpu "0.0.0"
      (by cases os <;> cases cpu <;> decide)

/-- Closed witness for C3 at concrete inputs: version `"0.0.0"` fails
for (Linux, X86_64) in both registries. -/
theorem known_hash_exact_match_only_witness :
    Lib.known_hash .Linux .X86_64 "0.0.0"
      = .error "unknown hash for linux x86_64 0.0.0"
    ∧ Versions.known_hash .Linux .X86_64 "0.0.0"
      = .error "unknown hash for linux x86_64 0.0.0" :=
  ⟨(known_hash_exact_match_only .Linux .X86_64 "27.0").2.2.2.2.1,
    (known_hash_exact_match_only .Linux .X86_64 "27.0").2.2.2.2.2⟩

/-- C4: in both snapshots, `LATEST_VERSION` equals the version field of
the last entry of the `KNOWN_VERSIONS` table. -/
theorem latest_version_is_last_entry :
    Lib.KNOWN_VERSIONS.getLast?.map KnownVersion.version
      = some Lib.LATEST_VERSION
    ∧ Versions.KNOWN_VERSIONS.getLast?.map KnownVersion.version
      = some Versions.LATEST_VERSION := by
  exact ⟨rfl, rfl⟩

/-- C5: in both registry tables, distinct entries have distinct
`(os, cpu, version)` triples. -/
theorem known_versions_triples_unique :
    Lib.KNOWN_VERSIONS.Pairwise
      (fun a b => ¬(a.os = b.os ∧ a.cpu = b.cpu ∧ a.version = b.version))
    ∧ Versions.KNOWN_VERSIONS.Pairwise
      (fun a b => ¬(a.os = b.os ∧ a.cpu = b.cpu ∧ a.version = b.version)) := by
  constructor <;> decide

/-- C6: in both registry tables, the version strings are non-decreasing
in declaration order under plain string comparison. -/
theorem known_versions_nondecreasing :
    Lib.KNOWN_VERSIONS.Chain' (fun a b => str_le a.version b.version)
    ∧ Versions.KNOWN_VERSIONS.Chain' (fun a b => str_le a.version b.version) := by
  constructor <;>
    · simp only [Lib.KNOWN_VERSIONS, Versions.KNOWN_VERSIONS,
        List.chain'_cons, List.chain'_singleton, and_true]
      decide

end Dlprotoc

namespace Dlprotoc

/-- C9: platform resolution maps `"linux"` / `"macos"` and `"aarch64"` /
`"x86_64"` to the corresponding enum variants, and panics (modelled as
`none`, a process abort rather than a recoverable `Result`) exactly on
every other platform identifier. -/
theorem current_platform_mapping :
    OS.currentFrom "linux" = some .Linux
    ∧ OS.currentFrom "macos" = some .OSX
    ∧ CPUArch.currentFrom "aarch64" = some .AArch64
    ∧ CPUArch.currentFrom "x86_64" = some .X86_64
    ∧ (∀ s : String, OS.currentFrom s = none ↔ (s ≠ "linux" ∧ s ≠ "macos"))
    ∧ (∀ s : String,
        CPUArch.currentFrom s = none ↔ (s ≠ "aarch64" ∧ s ≠ "x86_64")) := by
  refine ⟨rfl, rfl, rfl, rfl, fun s => ?_, fun s => ?_⟩
  · unfold OS.currentFrom
    split_ifs with h1 h2 <;> simp_all
  · unfold CPUArch.currentFrom
    split_ifs with h1 h2 <;> simp_all

/-- C10: both registries have a pinned digest for their latest known
version on every supported (OS, CPU architecture) pair, so the registry
lookup of the verified-install path succeeds on every supported
platform. -/
theorem latest_version_known_for_all_platforms :
    ∀ os ∈ OS.all, ∀ cpu ∈ CPUArch.all,
      (Lib.known_hash os cpu Lib.LATEST_VERSION).isOk = true
      ∧ (Versions.known_hash os cpu Versions.LATEST_VERSION).isOk = true := by
  decide

/-- Closed witness for C10 at (Linux, X86_64). -/
theorem latest_version_known_for_all_platforms_witness :
    (Lib.known_hash .Linux .X86_64 Lib.LATEST_VERSION).isOk = true
    ∧ (Versions.known_hash .Linux .X86_64 Versions.LATEST_VERSION).isOk
      = true :=
  latest_version_known_for_all_platforms .Linux (by decide) .X86_64 (by decide)

end Dlprotoc

namespace Dlprotoc

/-- C1: in every completed run of the verified install (`write_protoc`
over `fetch_current`), extraction happens only when the digest computed
over the downloaded bytes equals the pinned digest for (current OS,
current architecture, latest known version) — and then only after the
fetch; when the digests differ the run fails with the
`hash mismatch` error and no extraction occurs. -/
theorem write_protoc_extract_only_after_digest_match
    (env : Env) (osStr archStr dest : String) (res : Except String Unit)
    (tr : List Event)
    (hrun : write_protoc env osStr archStr dest = some (res, tr)) :
    (∀ d, Event.extract d ∈ tr →
      ∃ os cpu data,
        OS.currentFrom osStr = some os
        ∧ CPUArch.currentFrom archStr = some cpu
        ∧ env.get (make_url os cpu Lib.LATEST_VERSION) = .ok data
        ∧ Lib.known_hash os cpu Lib.LATEST_VERSION
          = .ok (protoc_hash env data)
        ∧ d = dest
        ∧ tr = [Event.fetch (make_url os cpu Lib.LATEST_VERSION),
            Event.extract dest])
    ∧ (∀ (os : OS) (cpu : CPUArch) (expected : Nat) (data : List Nat),
        OS.currentFrom osStr = some os →
        CPUArch.currentFrom archStr = some cpu →
        Lib.known_hash os cpu Lib.LATEST_VERSION = .ok expected →
        env.get (make_url os cpu Lib.LATEST_VERSION) = .ok data →
        protoc_hash env data ≠ expected →
        res = .error ("hash mismatch for " ++ os.urlToken ++ " "
          ++ cpu.urlToken ++ " " ++ Lib.LATEST_VERSION)
        ∧ ∀ d, Event.extract d ∉ tr) := by
  cases hos : OS.currentFrom osStr with
  | none =>
    cases harch : CPUArch.currentFrom archStr <;>
      simp [write_protoc, fetch_current, hos, harch] at hrun
  | some os =>
  cases harch : CPUArch.currentFrom archStr with
  | none => simp [write_protoc, fetch_current, hos, harch] at hrun
  | some cpu =>
  cases hkh : Lib.known_hash os cpu Lib.LATEST_VERSION with
  | error e =>
    simp only [write_protoc, fetch_current, download_unverified, protoc_hash,
      write_protoc_zip_data, hos, harch, hkh, Option.some.injEq,
      Prod.mk.injEq] at hrun
    obtain ⟨hres, htr⟩ := hrun
    constructor
    · intro d hd
      rw [← htr] at hd
      simp at hd
    · intro os2 cpu2 expected data hos2 harch2 hkh2 hget2 hne
      cases Option.some.inj hos2
      cases Option.some.inj harch2
      rw [hkh] at hkh2
      exact absurd hkh2 (by simp)
  | ok expected =>
  cases hget : env.get (make_url os cpu Lib.LATEST_VERSION) with
  | error e =>
    simp only [write_protoc, fetch_current, download_unverified, protoc_hash,
      write_protoc_zip_data, hos, harch, hkh, hget, Option.some.injEq,
      Prod.mk.injEq] at hrun
    obtain ⟨hres, htr⟩ := hrun
    constructor
    · intro d hd
      rw [← htr] at hd
      simp at hd
    · intro os2 cpu2 expected2 data hos2 harch2 hkh2 hget2 hne
      cases Option.some.inj hos2
      cases Option.some.inj harch2
      rw [hget] at hget2
      exact absurd hget2 (by simp)
  | ok data =>
  by_cases hne : expected = env.sha256 data
  · simp only [write_protoc, fetch_current, download_unverified, protoc_hash,
      write_protoc_zip_data, hos, harch, hkh, hget, hne, ne_eq,
      not_true_eq_false, if_false, Option.some.injEq, Prod.mk.injEq] at hrun
    obtain ⟨hres, htr⟩ := hrun
    constructor
    · intro d hd
      refine ⟨os, cpu, data, rfl, rfl, hget, ?_, ?_, ?_⟩
      · rw [hkh, protoc_hash, ← hne]
      · rw [← htr] at hd
        simp at hd
        exact hd
      · rw [← htr]
        rfl
    · intro os2 cpu2 expected2 data2 hos2 harch2 hkh2 hget2 hne2
      cases Option.some.inj hos2
      cases Option.some.inj harch2
      rw [hkh] at hkh2
      cases Except.ok.inj hkh2
      rw [hget] at hget2
      cases Except.ok.inj hget2
      exact absurd hne.symm hne2
  · simp only [write_protoc, fetch_current, download_unverified, protoc_hash,
      write_protoc_zip_data, hos, harch, hkh, hget, if_pos hne,
      Option.some.injEq, Prod.mk.injEq] at hrun
    obtain ⟨hres, htr⟩ := hrun
    constructor
    · intro d hd
      rw [← htr] at hd
      simp at hd
    · intro os2 cpu2 expected2 data2 hos2 harch2 hkh2 hget2 hne2
      cases Option.some.inj hos2
      cases Option.some.inj harch2
      rw [hkh] at hkh2
      cases Except.ok.inj hkh2
      rw [hget] at hget2
      cases Except.ok.inj hget2
      exact ⟨hres.symm, fun d hd => by rw [← htr] at hd; simp at hd⟩

end Dlprotoc

namespace Dlprotoc

/-- Closed witness for C1: a concrete environment whose digest (`0`)
never matches the pinned hash, run on (linux, x86_64): the run ends in
the `hash mismatch` error and its trace contains no extraction. -/
theorem write_protoc_extract_only_after_digest_match_witness :
    write_protoc envMismatch "linux" "x86_64" "out"
      = some (.error "hash mismatch for linux x86_64 27.1",
          [Event.fetch (make_url .Linux .X86_64 Lib.LATEST_VERSION)])
    ∧ Event.extract "out"
      ∉ [Event.fetch (make_url .Linux .X86_64 Lib.LATEST_VERSION)] := by
  have hrun : write_protoc envMismatch "linux" "x86_64" "out"
      = some (.error "hash mismatch for linux x86_64 27.1",
          [Event.fetch (make_url .Linux .X86_64 Lib.LATEST_VERSION)]) := rfl
  have h := write_protoc_extract_only_after_digest_match envMismatch "linux"
    "x86_64" "out" (.error "hash mismatch for linux x86_64 27.1")
    [Event.fetch (make_url .Linux .X86_64 Lib.LATEST_VERSION)] hrun
  have h2 := h.2 .Linux .X86_64
    0x8970e3d8bbd67d53768fe8c2e3971bdd71e51cfe2001ca06dacad17258a7dae3
    [0] rfl rfl rfl rfl (by decide)
  exact ⟨hrun, h2.2 "out"⟩

end Dlprotoc

namespace Dlprotoc

/-- A successful run of `write_protoc` resolved the platform and its
trace is exactly one fetch of the latest release followed by one
extraction into the destination. -/
lemma write_protoc_ok_trace (env : Env) (osStr archStr dest : String)
    (u : Unit) (tr : List Event)
    (hrun : write_protoc env osStr archStr dest = some (.ok u, tr)) :
    ∃ os cpu, OS.currentFrom osStr = some os
      ∧ CPUArch.currentFrom archStr = some cpu
      ∧ tr = [Event.fetch (make_url os cpu Lib.LATEST_VERSION),
          Event.extract dest] := by
  cases hos : OS.currentFrom osStr with
  | none =>
    cases harch : CPUArch.currentFrom archStr <;>
      simp [write_protoc, fetch_current, hos, harch] at hrun
  | some os =>
  cases harch : CPUArch.currentFrom archStr with
  | none => simp [write_protoc, fetch_current, hos, harch] at hrun
  | some cpu =>
  cases hkh : Lib.known_hash os cpu Lib.LATEST_VERSION with
  | error e =>
    simp [write_protoc, fetch_current, download_unverified, protoc_hash,
      write_protoc_zip_data, hos, harch, hkh] at hrun
  | ok expected =>
  cases hget : env.get (make_url os cpu Lib.LATEST_VERSION) with
  | error e =>
    simp [write_protoc, fetch_current, download_unverified, protoc_hash,
      write_protoc_zip_data, hos, harch, hkh, hget] at hrun
  | ok data =>
  by_cases hne : expected = env.sha256 data
  · simp only [write_protoc, fetch_current, download_unverified, protoc_hash,
      write_protoc_zip_data, hos, harch, hkh, hget, hne, ne_eq,
      not_true_eq_false, if_false, Option.some.injEq, Prod.mk.injEq] at hrun
    exact ⟨os, cpu, rfl, rfl, by rw [← hrun.2]; rfl⟩
  · simp [write_protoc, fetch_current, download_unverified, protoc_hash,
      write_protoc_zip_data, hos, harch, hkh, hget, if_pos hne] at hrun

/-- C7: `download_protoc` is idempotent across runs.  When the
destination (`OUT_DIR` joined with `"protoc_zip"`) already exists it
performs no fetch, no verification and no extraction (empty trace) and
reuses the existing tree; when it does not exist it performs exactly the
full verified install (`write_protoc`); hence a first successful call
against an unset destination performs exactly one fetch, and a second
call performs zero fetches. -/
theorem download_protoc_idempotent
    (env : Env) (osStr archStr : String) (st : BuildState) (out : String)
    (hout : st.out_dir = some out) :
    (out ++ "/protoc_zip" ∈ st.existing →
      download_protoc env osStr archStr st
        = some (.ok (),
            { st with protoc_var := some (out ++ "/protoc_zip") }, []))
    ∧ (out ++ "/protoc_zip" ∉ st.existing →
        (∀ (r : Except String Unit) (st₁ : BuildState) (tr₁ : List Event),
          download_protoc env osStr archStr st = some (r, st₁, tr₁) →
          write_protoc env osStr archStr (out ++ "/protoc_zip")
            = some (r, tr₁))
        ∧ (∀ (st₁ : BuildState) (tr₁ : List Event),
            download_protoc env osStr archStr st = some (.ok (), st₁, tr₁) →
            countFetch tr₁ = 1
            ∧ ∀ (r₂ : Except String Unit) (st₂ : BuildState)
                (tr₂ : List Event),
                download_protoc env osStr archStr st₁ = some (r₂, st₂, tr₂) →
                r₂ = .ok () ∧ countFetch tr₂ = 0)) := by
  refine ⟨fun hmem => ?_, fun hnot => ⟨?_, ?_⟩⟩
  · simp [download_protoc, hout, hmem]
  · intro r st₁ tr₁ hdl
    simp only [download_protoc, hout, if_neg hnot] at hdl
    cases hwp : write_protoc env osStr archStr (out ++ "/protoc_zip") with
    | none => rw [hwp] at hdl; simp at hdl
    | some pair =>
      obtain ⟨wres, wtr⟩ := pair
      rw [hwp] at hdl
      cases wres with
      | error e =>
        simp only [Option.some.injEq, Prod.mk.injEq] at hdl
        rw [hdl.1.symm, hdl.2.2.symm]
      | ok u =>
        simp only [Option.some.injEq, Prod.mk.injEq] at hdl
        rw [hdl.1.symm, hdl.2.2.symm]
  · intro st₁ tr₁ hdl
    simp only [download_protoc, hout, if_neg hnot] at hdl
    cases hwp : write_protoc env osStr archStr (out ++ "/protoc_zip") with
    | none => rw [hwp] at hdl; simp at hdl
    | some pair =>
      obtain ⟨wres, wtr⟩ := pair
      rw [hwp] at hdl
      cases wres with
      | error e => simp at hdl
      | ok u =>
        simp only [Option.some.injEq, Prod.mk.injEq] at hdl
        obtain ⟨hu, hst, htr⟩ := hdl
        obtain ⟨os, cpu, hos, harch, hwtr⟩ :=
          write_protoc_ok_trace env osStr archStr (out ++ "/protoc_zip") u
            wtr hwp
        constructor
        · rw [← htr, hwtr]
          rfl
        · intro r₂ st₂ tr₂ h2
          rw [← hst] at h2
          simp only [download_protoc, hout, List.mem_cons, true_or,
            if_pos, Option.some.injEq, Prod.mk.injEq] at h2
          exact ⟨h2.1.symm, by rw [← h2.2.2]; rfl⟩

end Dlprotoc

namespace Dlprotoc

/-- Closed witness for C7: with a concrete matching environment on
(linux, x86_64) and an initially-unset destination, the first call's
trace has exactly one fetch and the second call's trace has zero. -/
theorem download_protoc_idempotent_witness :
    countFetch [Event.fetch (make_url .Linux .X86_64 Lib.LATEST_VERSION),
      Event.extract "out/protoc_zip"] = 1
    ∧ countFetch [] = 0 := by
  have h := (download_protoc_idempotent envGood "linux" "x86_64"
    ⟨some "out", [], none⟩ "out" rfl).2 (by decide)
  have h1 := h.2 ⟨some "out", ["out/protoc_zip"], some "out/protoc_zip"⟩
    [Event.fetch (make_url .Linux .X86_64 Lib.LATEST_VERSION),
      Event.extract "out/protoc_zip"] rfl
  have h2 := h1.2 (.ok ())
    ⟨some "out", ["out/protoc_zip"], some "out/protoc_zip"⟩ [] rfl
  exact ⟨h1.1, h2.2⟩

/-- C8 evaluated at a failing input: a successful run of
`download_protoc` with `OUT_DIR = "out"` on (linux, x86_64) sets the
`PROTOC` environment variable to the distribution directory
`"out/protoc_zip"`, while the installed protoc binary's location inside
that tree is `"out/protoc_zip/bin/protoc"` — a different path, so the
value written is not the executable's path. -/
theorem download_protoc_sets_protoc_to_distribution_dir :
    download_protoc envGood "linux" "x86_64" ⟨some "out", [], none⟩
      = some (.ok (),
          ⟨some "out", ["out/protoc_zip"], some "out/protoc_zip"⟩,
          [Event.fetch (make_url .Linux .X86_64 Lib.LATEST_VERSION),
            Event.extract "out/protoc_zip"])
    ∧ protoc_binary_path "out/protoc_zip" = "out/protoc_zip/bin/protoc"
    ∧ ("out/protoc_zip" : String) ≠ "out/protoc_zip/bin/protoc" :=
  ⟨rfl, rfl, by decide⟩

end Dlprotoc
